import Mathlib

/-!
Shallow embedding of the sprite-animation core of the scarab engine
(`scarab-engine/src/rendering/sprite/mod.rs` and the animation part of
`scarab-engine/src/error.rs`), together with proofs about its behaviour.

Modelling conventions:
* `f64` quantities (positions, sizes, milliseconds-per-frame) are modelled as
  exact rationals `ℚ`; the Rust casts `as u32` / `as u128` (truncation towards
  zero, saturating at the bounds, for nonnegative values the floor) are
  modelled by `Int.toNat ∘ Int.floor` capped at the type's maximum.
* `Instant` is modelled as a rational number of milliseconds on a monotonic
  clock; `Duration::as_millis` keeps the whole milliseconds.
* A Rust panic (integer division by zero, `Option::unwrap` on `None`) is
  modelled by returning `none` from an `Option`-valued function.
* `HashMap<S, SpriteAnimation>` is modelled as a duplicate-free association
  list with `DecidableEq` keys; `format!("\x7b:?\x7d", state)` is modelled by
  an explicit debug-formatting function `dbg : S → String`.
* The drawing side effects of `SpriteView::render` (camera projection, draw
  call) mutate no animation state, so rendering is modelled by its effect on
  the animation state alone.
-/

/-- Association-list lookup, the model of `HashMap::get` / `contains_key`. -/
def lookupA {α β : Type} [DecidableEq α] : List (α × β) → α → Option β
  | [], _ => none
  | (k, v) :: rest, a => if k = a then some v else lookupA rest a

/-- Association-list insert/replace, the model of `HashMap::insert`. -/
def insertA {α β : Type} [DecidableEq α] : List (α × β) → α → β → List (α × β)
  | [], k, v => [(k, v)]
  | (k', v') :: rest, k, v =>
      if k' = k then (k, v) :: rest else (k', v') :: insertA rest k v

/-- Association-list in-place update of one entry, the model of mutating
through `HashMap::get_mut`. -/
def updateA {α β : Type} [DecidableEq α] : List (α × β) → α → (β → β) → List (α × β)
  | [], _, _ => []
  | (k', v) :: rest, k, f =>
      if k' = k then (k, f v) :: rest else (k', v) :: updateA rest k f

/-- Rust `f64 as u128`: truncation towards zero, saturating; on the
nonnegative values (and on all negatives, which saturate to 0) this agrees
with `Int.toNat ∘ Int.floor`, capped at `u128::MAX`. -/
def f64AsU128 (q : ℚ) : ℕ := min (⌊q⌋).toNat (2 ^ 128 - 1)

/-- Rust `f64 as u32`, same truncating-saturating semantics at 32 bits. -/
def f64AsU32 (q : ℚ) : ℕ := min (⌊q⌋).toNat (2 ^ 32 - 1)

/-- Rust `u128 as usize` on a 64-bit target: keep the low 64 bits. -/
def u128AsUsize (n : ℕ) : ℕ := n % 2 ^ 64

/-- Model of `std::time::Instant`: milliseconds (possibly fractional) on a
monotonic clock. -/
abbrev Instant : Type := ℚ

/-- Model of `(later - earlier).as_millis()`: the whole elapsed milliseconds
(`Duration::as_millis` discards the sub-millisecond part). -/
def durationAsMillis (earlier later : Instant) : ℕ := (⌊(later : ℚ) - earlier⌋).toNat

/-- The engine's `Axis` type (`types::Axis`): which sheet axis the frame
index walks along. -/
inductive Axis : Type
  | X
  | Y
deriving DecidableEq

/-- The `shapes::Point` type, components modelled as exact rationals. -/
structure Point : Type where
  x : ℚ
  y : ℚ
deriving DecidableEq

/-- The `shapes::Size` type, components modelled as exact rationals. -/
structure Size : Type where
  w : ℚ
  h : ℚ
deriving DecidableEq

/-- One `[f64; 4]` rectangle `[x, y, w, h]` of the `graphics::Image` type. -/
structure Rect4 : Type where
  x : ℚ
  y : ℚ
  w : ℚ
  h : ℚ
deriving DecidableEq

/-- The fields of `graphics::Image` that the sprite code reads or writes:
`rectangle` (set by `.rect(..)`) and `source_rectangle` (set by
`.src_rect(..)`, mutated by `set_src_rect_pos`). `Image::new()` starts with
both unset. -/
structure Image : Type where
  rectangle : Option Rect4
  source_rectangle : Option Rect4
deriving DecidableEq

/-- `AnimationError` from `scarab-engine/src/error.rs`. -/
inductive AnimationError : Type
  | TooManyFrames (requested : ℕ) (maxFrames : ℕ)
  | NoAnimationForState (state : String)
deriving DecidableEq

/-- `RenderError` from `scarab-engine/src/error.rs` (the
`CouldNotLoadTexture` variant is registry-loading infrastructure and is
carried along unused by the sprite code). -/
inductive RenderError : Type
  | TextureNotLoaded (path : String)
  | AnimationErr (e : AnimationError)
  | CouldNotLoadTexture (path : String) (msg : String)
deriving DecidableEq

/-- The part of `ScarabError` reachable from the sprite code:
`AnimationStateMachine::new` returns a `ScarabResult`. Variants carrying
infrastructure payloads (I/O, GPU, UUID) are irrelevant here and collapsed
to parameterless constructors. -/
inductive ScarabError : Type
  | RequestAdapterError
  | Unknown
  | RawString (s : String)
  | EntityRegistration
  | IoError
  | PhysicsErr
  | RenderingError (e : RenderError)
deriving DecidableEq

/-- The texture registry interface used by the sprite code during
construction: `get(path)` yields the texture, of which only
`get_size() : (u32, u32)` is read. We model a registry as the association
of paths to pixel sizes. -/
structure TextureRegistry : Type where
  textures : List (String × (ℕ × ℕ))

/-- `TextureRegistry::get`, specialized to the pixel size that
`SpriteAnimation::new` reads from the returned texture. -/
def TextureRegistry.get (r : TextureRegistry) (path : String) : Option (ℕ × ℕ) :=
  lookupA r.textures path

/-- `SpriteView` from `rendering/sprite/mod.rs`: a static image view over a
sprite sheet. The texture handle is not stored; only the path is. -/
structure SpriteView : Type where
  pos : Point
  sprite_size : Size
  image : Image
  texture_path : String
deriving DecidableEq

/-- `SpriteView::new`: builds the image with both rectangles
`[0, 0, w, h]`. In the source this returns `RenderResult<Self>` but is
always `Ok`; the claims consume it through `SpriteAnimation::new`, where
the `?` on it never propagates an error. -/
def SpriteView.new (pos : Point) (sprite_size : Size) (texture_path : String) : SpriteView :=
  { pos := pos
    sprite_size := sprite_size
    image :=
      { rectangle := some ⟨0, 0, sprite_size.w, sprite_size.h⟩
        source_rectangle := some ⟨0, 0, sprite_size.w, sprite_size.h⟩ }
    texture_path := texture_path }

/-- `SpriteView::set_src_rect_pos`: move the source-rectangle origin,
keeping its dimensions; a no-op when the image has no source rectangle. -/
def SpriteView.set_src_rect_pos (v : SpriteView) (new_pos : Point) : SpriteView :=
  match v.image.source_rectangle with
  | none => v
  | some r =>
      { v with image := { v.image with
          source_rectangle := some ⟨new_pos.x, new_pos.y, r.w, r.h⟩ } }

/-- `SpriteAnimation` from `rendering/sprite/mod.rs`. `last_update` carries
`#[serde(skip)]` and `#[serde(default = "Instant::now")]`. -/
structure SpriteAnimation : Type where
  sprite : SpriteView
  frames_in_sprite_map : ℕ
  frame_num : ℕ
  milliseconds_per_frame : ℚ
  animation_direction : Axis
  last_update : Instant
deriving DecidableEq

/-- The divisor of the `max_num_frames` computation in
`SpriteAnimation::new`: the frame size along the animation direction,
cast `as u32`. -/
def sheetDivisor (sprite_size : Size) : Axis → ℕ
  | Axis.X => f64AsU32 sprite_size.w
  | Axis.Y => f64AsU32 sprite_size.h

/-- The dividend of the `max_num_frames` computation in
`SpriteAnimation::new`: the sheet's pixel extent along the animation
direction (`map_size.0` for X, `map_size.1` for Y). -/
def sheetExtent (map_size : ℕ × ℕ) : Axis → ℕ
  | Axis.X => map_size.1
  | Axis.Y => map_size.2

/-- `SpriteAnimation::new`. Reads the sheet's pixel size from the registry,
derives `max_num_frames` by `u32` division of the sheet extent along the
animation direction by the truncated frame size on that axis, and validates
the optional frame-count hint. The outer `Option` models the panic of the
`u32` division when the truncated frame size is zero (`none` = panic);
`Instant::now()` at construction is the explicit `now` argument. -/
def SpriteAnimation.new (pos : Point) (sprite_size : Size) (texture_path : String)
    (milliseconds_per_frame : ℚ) (animation_direction : Axis)
    (frames_in_sprite_map : Option ℕ) (registry : TextureRegistry)
    (now : Instant) : Option (Except RenderError SpriteAnimation) :=
  let sprite := SpriteView.new pos sprite_size texture_path
  match registry.get sprite.texture_path with
  | none => some (Except.error (RenderError.TextureNotLoaded sprite.texture_path))
  | some map_size =>
      let divisor : ℕ := sheetDivisor sprite_size animation_direction
      let extent : ℕ := sheetExtent map_size animation_direction
      if divisor = 0 then none
      else
        let max_num_frames := extent / divisor
        match frames_in_sprite_map with
        | some frames =>
            if frames > max_num_frames then
              some (Except.error (RenderError.AnimationErr
                (AnimationError.TooManyFrames frames max_num_frames)))
            else
              some (Except.ok
                { sprite := sprite
                  frames_in_sprite_map := frames
                  frame_num := 0
                  milliseconds_per_frame := milliseconds_per_frame
                  animation_direction := animation_direction
                  last_update := now })
        | none =>
            some (Except.ok
              { sprite := sprite
                frames_in_sprite_map := max_num_frames
                frame_num := 0
                milliseconds_per_frame := milliseconds_per_frame
                animation_direction := animation_direction
                last_update := now })

/-- `SpriteAnimation::new_static_frame`: a one-frame "animation" with frame
count 0 (advance disabled) and a 1000 ms sentinel frame duration. -/
def SpriteAnimation.new_static_frame (sprite : SpriteView) (now : Instant) : SpriteAnimation :=
  { sprite := sprite
    frames_in_sprite_map := 0
    frame_num := 0
    milliseconds_per_frame := 1000
    animation_direction := Axis.X
    last_update := now }

/-- `SpriteAnimation::reset`: frame index to 0, timestamp to now. -/
def SpriteAnimation.reset (a : SpriteAnimation) (now : Instant) : SpriteAnimation :=
  { a with frame_num := 0, last_update := now }

/-- `SpriteAnimation::render`, restricted to its effect on the animation
state (the delegated draw mutates nothing). The code computes
`num_new_frames = ((now - last_update).as_millis() / ms_per_frame as u128) as usize`
and, when it is positive and the frame count is positive, advances the frame
counter modulo the frame count, stamps `last_update`, and pushes the new
source-rectangle origin into the wrapped view. The `u128` division panics
when the truncated divisor is zero; `none` models that panic. -/
def SpriteAnimation.render (a : SpriteAnimation) (now : Instant) : Option SpriteAnimation :=
  let divisor := f64AsU128 a.milliseconds_per_frame
  if divisor = 0 then none
  else
    let num_new_frames := u128AsUsize (durationAsMillis a.last_update now / divisor)
    if num_new_frames > 0 ∧ a.frames_in_sprite_map > 0 then
      let frame_num := (a.frame_num + num_new_frames) % a.frames_in_sprite_map
      let new_pos : Point :=
        match a.animation_direction with
        | Axis.X => ⟨(frame_num : ℚ) * a.sprite.sprite_size.w, 0⟩
        | Axis.Y => ⟨0, (frame_num : ℚ) * a.sprite.sprite_size.h⟩
      some { a with
        last_update := now
        frame_num := frame_num
        sprite := a.sprite.set_src_rect_pos new_pos }
    else
      some a

/-- `AnimationStateMachine` over a state type `S` (the `AnimationStates`
trait bound becomes `DecidableEq S` plus the explicitly passed policy and
debug-formatting functions). -/
structure AnimationStateMachine (S : Type) : Type where
  current_state : S
  animations : List (S × SpriteAnimation)

/-- `AnimationStateMachine::new`. The source looks `initial_state` up and
prepares a `NoAnimationForState` error with `ok_or_else`, but binds the
result to `_` and returns `Ok` unconditionally. `initialCheck` is that
discarded computation. -/
def AnimationStateMachine.initialCheck {S : Type} [DecidableEq S] (dbg : S → String)
    (initial_state : S) (animations : List (S × SpriteAnimation)) :
    Except AnimationError SpriteAnimation :=
  match lookupA animations initial_state with
  | some a => Except.ok a
  | none => Except.error (AnimationError.NoAnimationForState (dbg initial_state))

/-- `AnimationStateMachine::new` itself: the check's value is discarded and
construction always succeeds. -/
def AnimationStateMachine.new {S : Type} [DecidableEq S] (dbg : S → String)
    (initial_state : S) (animations : List (S × SpriteAnimation)) :
    Except ScarabError (AnimationStateMachine S) :=
  let _ := AnimationStateMachine.initialCheck dbg initial_state animations
  Except.ok { current_state := initial_state, animations := animations }

/-- `AnimationStateMachine::set_state_animation`: insert or replace the
animation mapped to a state. -/
def AnimationStateMachine.set_state_animation {S : Type} [DecidableEq S]
    (m : AnimationStateMachine S) (state : S) (animation : SpriteAnimation) :
    AnimationStateMachine S :=
  { m with animations := insertA m.animations state animation }

/-- `AnimationStateMachine::set_current_state`: when `new_state` is mapped,
reset its animation (the fresh `Instant::now()` inside `reset` is the `now`
argument) and swap the current state; otherwise return the
`NoAnimationForState` error and leave the machine untouched. The pair
returns the machine after the call together with the `Err` payload, if any. -/
def AnimationStateMachine.set_current_state {S : Type} [DecidableEq S] (dbg : S → String)
    (m : AnimationStateMachine S) (now : Instant) (new_state : S) :
    AnimationStateMachine S × Option AnimationError :=
  if (lookupA m.animations new_state).isSome then
    ({ current_state := new_state
       animations := updateA m.animations new_state (fun a => a.reset now) }, none)
  else
    (m, some (AnimationError.NoAnimationForState (dbg new_state)))

/-- The policy-evaluation prefix of `AnimationStateMachine::render`
(`impl View`): ask `next_state`; on `Some`, attempt `set_current_state`,
whose failure is printed and swallowed (`unwrap_or_else`), keeping the
machine as `set_current_state` left it. -/
def AnimationStateMachine.policyStep {S V : Type} [DecidableEq S]
    (next_state : S → V → Option S) (dbg : S → String)
    (m : AnimationStateMachine S) (viewed : V) (now : Instant) :
    AnimationStateMachine S :=
  match next_state m.current_state viewed with
  | none => m
  | some s => (AnimationStateMachine.set_current_state dbg m now s).1

/-- `AnimationStateMachine::render` (`impl View`): policy step, then an
`unwrap`ped lookup of the current state's animation (`none` models that
panic), then the animation's own render (whose division-by-zero panic also
surfaces as `none`). Both `Instant::now()` samples of the tick are modelled
by the one `now` argument. -/
def AnimationStateMachine.render {S V : Type} [DecidableEq S]
    (next_state : S → V → Option S) (dbg : S → String)
    (m : AnimationStateMachine S) (viewed : V) (now : Instant) :
    Option (AnimationStateMachine S) :=
  let m1 := AnimationStateMachine.policyStep next_state dbg m viewed now
  match lookupA m1.animations m1.current_state with
  | none => none
  | some animation =>
      match animation.render now with
      | none => none
      | some anim' =>
          some { m1 with animations := updateA m1.animations m1.current_state (fun _ => anim') }

/-- The `StaticAnimation<E>` marker state with its phantom erased: a unit
type whose derived equality is trivially true. -/
structure StaticAnimation : Type where
deriving DecidableEq

/-- The `AnimationStates` policy of `StaticAnimation`: never transition. -/
def StaticAnimation.next_state {V : Type} (_s : StaticAnimation) (_viewed : V) :
    Option StaticAnimation :=
  none

/-- `AnimationStateMachine::static_animation`: a machine pinned to the
single `StaticAnimation` state. -/
def AnimationStateMachine.static_animation (animation : SpriteAnimation) :
    AnimationStateMachine StaticAnimation :=
  { current_state := ⟨⟩
    animations := insertA ([] : List (StaticAnimation × SpriteAnimation)) ⟨⟩ animation }

/-- The persisted representation of a `SpriteAnimation` under the serde
derive: every field except `last_update`, which carries `#[serde(skip)]`.
The wrapped `SpriteView` (position, size, image rectangles via the
`ImageDef` mirror, texture path) is persisted whole. -/
structure SpriteAnimationData : Type where
  sprite : SpriteView
  frames_in_sprite_map : ℕ
  frame_num : ℕ
  milliseconds_per_frame : ℚ
  animation_direction : Axis
deriving DecidableEq

/-- Serialization of a `SpriteAnimation`: drop `last_update`. -/
def SpriteAnimation.serialize (a : SpriteAnimation) : SpriteAnimationData :=
  { sprite := a.sprite
    frames_in_sprite_map := a.frames_in_sprite_map
    frame_num := a.frame_num
    milliseconds_per_frame := a.milliseconds_per_frame
    animation_direction := a.animation_direction }

/-- Deserialization: restore the persisted fields and re-initialize
`last_update` from `#[serde(default = "Instant::now")]`. -/
def SpriteAnimation.deserialize (d : SpriteAnimationData) (now : Instant) : SpriteAnimation :=
  { sprite := d.sprite
    frames_in_sprite_map := d.frames_in_sprite_map
    frame_num := d.frame_num
    milliseconds_per_frame := d.milliseconds_per_frame
    animation_direction := d.animation_direction
    last_update := now }

/-! ### Helper lemmas about the association-list model of `HashMap` -/

theorem lookupA_insertA_self {α β : Type} [DecidableEq α] (l : List (α × β)) (k : α) (v : β) :
    lookupA (insertA l k v) k = some v := by
  induction l with
  | nil => simp [insertA, lookupA]
  | cons hd tl ih =>
      obtain ⟨k', v'⟩ := hd
      by_cases h : k' = k
      · simp [insertA, lookupA, h]
      · simp [insertA, lookupA, h, ih]

theorem lookupA_insertA_ne {α β : Type} [DecidableEq α] (l : List (α × β)) (k a : α) (v : β)
    (h : k ≠ a) : lookupA (insertA l k v) a = lookupA l a := by
  induction l with
  | nil => simp [insertA, lookupA, h]
  | cons hd tl ih =>
      obtain ⟨k', v'⟩ := hd
      by_cases h' : k' = k
      · subst h'
        simp [insertA, lookupA, h]
      · by_cases h'' : k' = a <;>
          simp [insertA, lookupA, h', h'', ih, Ne.symm h]

theorem lookupA_updateA_self {α β : Type} [DecidableEq α] (l : List (α × β)) (k : α)
    (f : β → β) : lookupA (updateA l k f) k = (lookupA l k).map f := by
  induction l with
  | nil => simp [updateA, lookupA]
  | cons hd tl ih =>
      obtain ⟨k', v'⟩ := hd
      by_cases h : k' = k
      · simp [updateA, lookupA, h]
      · simp [updateA, lookupA, h, ih]

/-! ### Shared concrete instances used by witnesses and counterexamples -/

/-- A texture path used in concrete instances. -/
def strPath : String := "player.png"

/-- A debug rendering of a state used in concrete instances. -/
def strState : String := "Idle"

/-- A formatting function standing in for the derived Debug of a state type. -/
def dbgB : Bool → String := fun _ => strState

/-- A concrete animation: 4 frames of a 16x16 strip at 100 ms per frame,
currently on frame 1, last updated at 3 ms. -/
def animB : SpriteAnimation :=
  { sprite := SpriteView.new ⟨0, 0⟩ ⟨16, 16⟩ strPath
    frames_in_sprite_map := 4
    frame_num := 1
    milliseconds_per_frame := 100
    animation_direction := Axis.X
    last_update := 3 }

/-! ### C4: the state-machine constructor never fails -/

/-- C4: `AnimationStateMachine::new` checks that the initial state has a
mapping entry (the `ok_or_else` bound to `_`), but construction returns `Ok`
on every input — even a mapping with no entry for the initial state — and
the prepared `NoAnimationForState` error value is never surfaced. -/
theorem animationStateMachine_new_never_fails {S : Type} [DecidableEq S]
    (dbg : S → String) (initial_state : S) (animations : List (S × SpriteAnimation)) :
    AnimationStateMachine.new dbg initial_state animations =
      Except.ok { current_state := initial_state, animations := animations } ∧
    (lookupA animations initial_state = none →
      AnimationStateMachine.initialCheck dbg initial_state animations =
        Except.error (AnimationError.NoAnimationForState (dbg initial_state))) := by
  constructor
  · rfl
  · intro h
    simp [AnimationStateMachine.initialCheck, h]

/-- Witness for C4: constructing with an empty mapping (no entry for the
initial state `true`) still returns `Ok`, while the discarded check did
compute the error value. -/
theorem animationStateMachine_new_never_fails_witness :
    AnimationStateMachine.new dbgB true ([] : List (Bool × SpriteAnimation)) =
      Except.ok { current_state := true, animations := [] } ∧
    AnimationStateMachine.initialCheck dbgB true ([] : List (Bool × SpriteAnimation)) =
      Except.error (AnimationError.NoAnimationForState (dbgB true)) := by
  have h := animationStateMachine_new_never_fails dbgB true
    ([] : List (Bool × SpriteAnimation))
  exact ⟨h.1, h.2 rfl⟩

/-! ### C8: serialization round trip -/

/-- C8: serializing then deserializing a `SpriteAnimation` preserves the
frame count, frame size, advance axis, milliseconds-per-frame and texture
path, while `last_update` is not read from the persisted data but set to the
deserialization-time `now`. -/
theorem spriteAnimation_serde_round_trip (a : SpriteAnimation) (now : Instant) :
    (SpriteAnimation.deserialize a.serialize now).frames_in_sprite_map =
      a.frames_in_sprite_map ∧
    (SpriteAnimation.deserialize a.serialize now).sprite.sprite_size =
      a.sprite.sprite_size ∧
    (SpriteAnimation.deserialize a.serialize now).animation_direction =
      a.animation_direction ∧
    (SpriteAnimation.deserialize a.serialize now).milliseconds_per_frame =
      a.milliseconds_per_frame ∧
    (SpriteAnimation.deserialize a.serialize now).sprite.texture_path =
      a.sprite.texture_path ∧
    (SpriteAnimation.deserialize a.serialize now).last_update = now :=
  ⟨rfl, rfl, rfl, rfl, rfl, rfl⟩

/-! ### C2: set_current_state succeeds exactly on mapped states -/

/-- C2: `set_current_state(new_state)` succeeds if and only if the mapping
has an entry for `new_state`; on success it resets that entry's animation
(frame index 0, timestamp `now`) and makes `new_state` current; on failure
it returns the `NoAnimationForState` error and leaves the machine unchanged. -/
theorem animationStateMachine_set_current_state_spec {S : Type} [DecidableEq S]
    (dbg : S → String) (m : AnimationStateMachine S) (now : Instant) (new_state : S) :
    ((m.set_current_state dbg now new_state).2 = none ↔
      (lookupA m.animations new_state).isSome = true) ∧
    (∀ a, lookupA m.animations new_state = some a →
      (m.set_current_state dbg now new_state).1.current_state = new_state ∧
      lookupA (m.set_current_state dbg now new_state).1.animations new_state =
        some (a.reset now) ∧
      (a.reset now).frame_num = 0 ∧ (a.reset now).last_update = now) ∧
    (lookupA m.animations new_state = none →
      (m.set_current_state dbg now new_state).1 = m ∧
      (m.set_current_state dbg now new_state).2 =
        some (AnimationError.NoAnimationForState (dbg new_state))) := by
  refine ⟨?_, ?_, ?_⟩
  · by_cases h : (lookupA m.animations new_state).isSome = true <;>
      simp [AnimationStateMachine.set_current_state, h]
  · intro a ha
    have h : (lookupA m.animations new_state).isSome = true := by simp [ha]
    simp [AnimationStateMachine.set_current_state, h, lookupA_updateA_self, ha,
      SpriteAnimation.reset]
  · intro ha
    have h : ¬(lookupA m.animations new_state).isSome = true := by simp [ha]
    simp [AnimationStateMachine.set_current_state, h]

/-- Witness for C2: on the machine mapping only `false`, switching to the
mapped state `false` succeeds and resets its animation, while switching to
the unmapped state `true` leaves the machine unchanged and yields the
no-animation error. -/
theorem animationStateMachine_set_current_state_spec_witness :
    (({ current_state := false, animations := [(false, animB)] } :
        AnimationStateMachine Bool).set_current_state dbgB 9 false).1.current_state = false ∧
    lookupA (({ current_state := false, animations := [(false, animB)] } :
        AnimationStateMachine Bool).set_current_state dbgB 9 false).1.animations false =
      some (animB.reset 9) ∧
    (({ current_state := false, animations := [(false, animB)] } :
        AnimationStateMachine Bool).set_current_state dbgB 9 true).1 =
      { current_state := false, animations := [(false, animB)] } ∧
    (({ current_state := false, animations := [(false, animB)] } :
        AnimationStateMachine Bool).set_current_state dbgB 9 true).2 =
      some (AnimationError.NoAnimationForState (dbgB true)) := by
  have hsucc := (animationStateMachine_set_current_state_spec dbgB
    { current_state := false, animations := [(false, animB)] } 9 false).2.1 animB rfl
  have hfail := (animationStateMachine_set_current_state_spec dbgB
    { current_state := false, animations := [(false, animB)] } 9 true).2.2 rfl
  exact ⟨hsucc.1, hsucc.2.1, hfail.1, hfail.2⟩

/-! ### C5 and C6: frame-count validation and inference at construction -/

/-- A sheet path for the 64x64 sheet of the worked example. -/
def strSheet : String := "sheet64.png"

/-- A registry holding one 64x64-pixel texture. -/
def regW : TextureRegistry := { textures := [(strSheet, (64, 64))] }

/-- C5: when a frame-count hint is given and exceeds
`max_frames = sheet_extent / frame_size` (integer division along the advance
axis), `SpriteAnimation::new` fails with `TooManyFrames` carrying the hint
first and `max_frames` second. -/
theorem spriteAnimation_new_too_many_frames (pos : Point) (sprite_size : Size)
    (texture_path : String) (ms : ℚ) (dir : Axis) (frames : ℕ)
    (registry : TextureRegistry) (now : Instant) (map_size : ℕ × ℕ)
    (hget : registry.get texture_path = some map_size)
    (hdiv : sheetDivisor sprite_size dir ≠ 0)
    (hmax : sheetExtent map_size dir / sheetDivisor sprite_size dir < frames) :
    SpriteAnimation.new pos sprite_size texture_path ms dir (some frames) registry now =
      some (Except.error (RenderError.AnimationErr (AnimationError.TooManyFrames frames
        (sheetExtent map_size dir / sheetDivisor sprite_size dir)))) := by
  simp [SpriteAnimation.new, SpriteView.new, hget, hdiv, hmax]

/-- Witness for C5: a 64px-wide sheet with 20px frame width along X has
`max_frames = 64 / 20 = 3`, and the hint 5 fails with `TooManyFrames(5, 3)`. -/
theorem spriteAnimation_new_too_many_frames_witness :
    SpriteAnimation.new ⟨0, 0⟩ ⟨20, 20⟩ strSheet 100 Axis.X (some 5) regW 0 =
      some (Except.error (RenderError.AnimationErr
        (AnimationError.TooManyFrames 5 3))) := by
  have h20 : sheetDivisor ⟨20, 20⟩ Axis.X = 20 := by
    norm_num [sheetDivisor, f64AsU32]
    decide
  have h := spriteAnimation_new_too_many_frames ⟨0, 0⟩ ⟨20, 20⟩ strSheet 100 Axis.X 5
    regW 0 (64, 64) rfl (by rw [h20]; norm_num) (by rw [h20]; norm_num [sheetExtent])
  rw [h] 
  norm_num [sheetExtent, h20]

/-- C6: a successful `SpriteAnimation::new` call with no frame-count hint
yields frame count `max_frames = sheet_extent / frame_size` (integer
division along the advance axis); with a hint not exceeding `max_frames`,
the frame count is the hint. -/
theorem spriteAnimation_new_frame_count (pos : Point) (sprite_size : Size)
    (texture_path : String) (ms : ℚ) (dir : Axis)
    (registry : TextureRegistry) (now : Instant) (map_size : ℕ × ℕ)
    (hget : registry.get texture_path = some map_size)
    (hdiv : sheetDivisor sprite_size dir ≠ 0) :
    (∃ a, SpriteAnimation.new pos sprite_size texture_path ms dir none registry now =
        some (Except.ok a) ∧
      a.frames_in_sprite_map = sheetExtent map_size dir / sheetDivisor sprite_size dir) ∧
    (∀ frames, frames ≤ sheetExtent map_size dir / sheetDivisor sprite_size dir →
      ∃ a, SpriteAnimation.new pos sprite_size texture_path ms dir (some frames) registry
          now = some (Except.ok a) ∧
        a.frames_in_sprite_map = frames) := by
  constructor
  · refine ⟨{ sprite := SpriteView.new pos sprite_size texture_path
              frames_in_sprite_map := sheetExtent map_size dir / sheetDivisor sprite_size dir
              frame_num := 0
              milliseconds_per_frame := ms
              animation_direction := dir
              last_update := now }, ?_, rfl⟩
    simp [SpriteAnimation.new, SpriteView.new, hget, hdiv]
  · intro frames hf
    refine ⟨{ sprite := SpriteView.new pos sprite_size texture_path
              frames_in_sprite_map := frames
              frame_num := 0
              milliseconds_per_frame := ms
              animation_direction := dir
              last_update := now }, ?_, rfl⟩
    simp [SpriteAnimation.new, SpriteView.new, hget, hdiv, Nat.not_lt.mpr hf]

/-- Witness for C6: on the 64px sheet with 20px frames along X, no hint
yields frame count 3, and the hint 2 yields frame count 2. -/
theorem spriteAnimation_new_frame_count_witness :
    (∃ a, SpriteAnimation.new ⟨0, 0⟩ ⟨20, 20⟩ strSheet 100 Axis.X none regW 0 =
        some (Except.ok a) ∧ a.frames_in_sprite_map = 3) ∧
    (∃ a, SpriteAnimation.new ⟨0, 0⟩ ⟨20, 20⟩ strSheet 100 Axis.X (some 2) regW 0 =
        some (Except.ok a) ∧ a.frames_in_sprite_map = 2) := by
  have h20 : sheetDivisor ⟨20, 20⟩ Axis.X = 20 := by
    norm_num [sheetDivisor, f64AsU32]
    decide
  have h := spriteAnimation_new_frame_count ⟨0, 0⟩ ⟨20, 20⟩ strSheet 100 Axis.X regW 0
    (64, 64) rfl (by rw [h20]; norm_num)
  constructor
  · obtain ⟨a, ha, hfc⟩ := h.1
    exact ⟨a, ha, by rw [hfc, h20]; norm_num [sheetExtent]⟩
  · exact h.2 2 (by rw [h20]; norm_num [sheetExtent])

/-! ### C7: frame count 0 freezes the animation (amended) -/

/-- C7 (amended): a `SpriteAnimation` with frame count 0 whose
`milliseconds_per_frame` truncates to a nonzero `u128` — in particular any
animation built by `new_static_frame`, which sets 1000 — is left fully
unchanged by every render call, regardless of the elapsed time.
(The truncation hypothesis is necessary: see the counterexample, where the
division in `render` panics before the frame-count guard is reached.) -/
theorem spriteAnimation_render_frozen (a : SpriteAnimation) (now : Instant)
    (h0 : a.frames_in_sprite_map = 0)
    (hd : f64AsU128 a.milliseconds_per_frame ≠ 0) :
    a.render now = some a := by
  simp [SpriteAnimation.render, hd, h0]

/-- A frame-count-0 animation whose frame duration is strictly between 0
and 1 millisecond; constructible through `SpriteAnimation::new` against a
sheet narrower than one frame. -/
def animC7 : SpriteAnimation :=
  { sprite := SpriteView.new ⟨0, 0⟩ ⟨16, 16⟩ strPath
    frames_in_sprite_map := 0
    frame_num := 0
    milliseconds_per_frame := 1 / 2
    animation_direction := Axis.X
    last_update := 0 }

/-- Counterexample to C7 as stated: this frame-count-0 animation does not
leave its state unchanged under render — the elapsed-frame division's
divisor `0.5 as u128` is zero and the render call panics (modelled `none`),
for any elapsed time. -/
theorem spriteAnimation_render_frozen_cex :
    animC7.frames_in_sprite_map = 0 ∧ animC7.render 100 = none := by
  constructor
  · rfl
  · have hdz : f64AsU128 animC7.milliseconds_per_frame = 0 := by
      show f64AsU128 (1 / 2) = 0
      norm_num [f64AsU128]
    simp [SpriteAnimation.render, hdz]

/-- Witness for C7 (amended): a `new_static_frame` animation is unchanged
by a render 1000000 ms later (far beyond its 1000 ms frame duration). -/
theorem spriteAnimation_render_frozen_witness :
    (SpriteAnimation.new_static_frame (SpriteView.new ⟨0, 0⟩ ⟨16, 16⟩ strPath) 0).render
        1000000 =
      some (SpriteAnimation.new_static_frame (SpriteView.new ⟨0, 0⟩ ⟨16, 16⟩ strPath) 0) := by
  apply spriteAnimation_render_frozen
  · rfl
  · show f64AsU128 (1000 : ℚ) ≠ 0
    norm_num [f64AsU128]

/-! ### C10: the elapsed-frame divisor is the truncated frame duration -/

/-- C10: `render` divides the elapsed whole milliseconds by
`milliseconds_per_frame` truncated from `f64` to an integer
(`f64AsU128` in `SpriteAnimation.render`). For every animation whose
`milliseconds_per_frame` is at least 1 the divisor is nonzero and the render
computation is total (no division-by-zero panic), whereas a
`milliseconds_per_frame` strictly between 0 and 1 — allowed by the
positivity-only precondition — truncates to a zero divisor. -/
theorem spriteAnimation_render_divisor_truncation :
    (∀ q : ℚ, 1 ≤ q → f64AsU128 q ≠ 0) ∧
    (∀ q : ℚ, 0 < q → q < 1 → f64AsU128 q = 0) ∧
    (∀ (a : SpriteAnimation) (now : Instant),
      1 ≤ a.milliseconds_per_frame → (a.render now).isSome = true) := by
  have h1 : ∀ q : ℚ, 1 ≤ q → f64AsU128 q ≠ 0 := by
    intro q hq
    have hfl : (1 : ℤ) ≤ ⌊q⌋ := Int.le_floor.mpr (by exact_mod_cast hq)
    unfold f64AsU128
    omega
  refine ⟨h1, ?_, ?_⟩
  · intro q h0 hlt
    have hfl : ⌊q⌋ = 0 := Int.floor_eq_zero_iff.mpr ⟨le_of_lt h0, hlt⟩
    simp [f64AsU128, hfl]
  · intro a now hms
    have hd := h1 _ hms
    simp only [SpriteAnimation.render]
    rw [if_neg hd]
    by_cases hc : u128AsUsize (durationAsMillis a.last_update now /
        f64AsU128 a.milliseconds_per_frame) > 0 ∧ a.frames_in_sprite_map > 0
    · simp [hc]
    · simp [hc]

/-- Witness for C10: the divisor is nonzero at 2 ms per frame, zero at
0.5 ms per frame, and the concrete animation `animB` (100 ms per frame)
renders without a panic. -/
theorem spriteAnimation_render_divisor_truncation_witness :
    f64AsU128 2 ≠ 0 ∧ f64AsU128 (1 / 2) = 0 ∧ (animB.render 7).isSome = true := by
  refine ⟨spriteAnimation_render_divisor_truncation.1 2 (by norm_num),
    spriteAnimation_render_divisor_truncation.2.1 (1 / 2) (by norm_num) (by norm_num),
    spriteAnimation_render_divisor_truncation.2.2 animB 7 ?_⟩
  show (1 : ℚ) ≤ 100
  norm_num

/-! ### C1: the per-render frame advance (amended) -/

/-- C1 (amended): for an animation with positive frame count whose
`milliseconds_per_frame` truncates to a nonzero `u128` (otherwise the
division panics), render computes
`elapsed_frames = whole_elapsed_ms / (ms_per_frame as u128)` — integer
division by the truncated frame duration, which agrees with the claimed
`floor((now - last_update) / ms_per_frame)` only when `ms_per_frame` is an
integer — and if `elapsed_frames > 0` it sets the frame index to
`(i + elapsed_frames) mod f`, sets `last_update` to `now`, and moves the
wrapped view's cursor origin to `frame_index * frame_size` along the advance
axis and 0 along the other; if `elapsed_frames = 0` everything is unchanged. -/
theorem spriteAnimation_render_advance (a : SpriteAnimation) (now : Instant) (r : Rect4)
    (hf : 0 < a.frames_in_sprite_map)
    (hd : f64AsU128 a.milliseconds_per_frame ≠ 0)
    (hsrc : a.sprite.image.source_rectangle = some r) :
    (0 < u128AsUsize (durationAsMillis a.last_update now /
        f64AsU128 a.milliseconds_per_frame) →
      ∃ a', a.render now = some a' ∧
        a'.frame_num = (a.frame_num + u128AsUsize (durationAsMillis a.last_update now /
            f64AsU128 a.milliseconds_per_frame)) % a.frames_in_sprite_map ∧
        a'.last_update = now ∧
        a'.sprite.image.source_rectangle = some
          (match a.animation_direction with
            | Axis.X => ⟨(a'.frame_num : ℚ) * a.sprite.sprite_size.w, 0, r.w, r.h⟩
            | Axis.Y => ⟨0, (a'.frame_num : ℚ) * a.sprite.sprite_size.h, r.w, r.h⟩)) ∧
    (u128AsUsize (durationAsMillis a.last_update now /
        f64AsU128 a.milliseconds_per_frame) = 0 →
      a.render now = some a) := by
  constructor
  · intro he
    refine ⟨{ a with
        last_update := now
        frame_num := (a.frame_num + u128AsUsize (durationAsMillis a.last_update now /
          f64AsU128 a.milliseconds_per_frame)) % a.frames_in_sprite_map
        sprite := a.sprite.set_src_rect_pos
          (match a.animation_direction with
            | Axis.X => ⟨((a.frame_num + u128AsUsize (durationAsMillis a.last_update now /
                f64AsU128 a.milliseconds_per_frame)) % a.frames_in_sprite_map : ℕ) *
                a.sprite.sprite_size.w, 0⟩
            | Axis.Y => ⟨0, ((a.frame_num + u128AsUsize (durationAsMillis a.last_update now /
                f64AsU128 a.milliseconds_per_frame)) % a.frames_in_sprite_map : ℕ) *
                a.sprite.sprite_size.h⟩) }, ?_, rfl, rfl, ?_⟩
    · simp only [SpriteAnimation.render]
      rw [if_neg hd, if_pos ⟨he, hf⟩]
    · cases hax : a.animation_direction <;>
        simp [SpriteView.set_src_rect_pos, hsrc, hax]
  · intro he0
    simp [SpriteAnimation.render, hd, he0]

/-- An animation with a fractional frame duration of 2.5 ms on a 5-frame
strip, at frame 0, last updated at time 0. -/
def animC1 : SpriteAnimation :=
  { sprite := SpriteView.new ⟨0, 0⟩ ⟨20, 20⟩ strPath
    frames_in_sprite_map := 5
    frame_num := 0
    milliseconds_per_frame := 5 / 2
    animation_direction := Axis.X
    last_update := 0 }

/-- Counterexample to C1 as stated: after 4 elapsed ms at 2.5 ms per frame,
the code divides 4 whole ms by the truncated duration 2 and advances the
frame index to (0 + 2) mod 5 = 2, while the claimed
`floor((now - last_update) / ms_per_frame)` gives `floor(1.6) = 1` and thus
a claimed new index of 1. -/
theorem spriteAnimation_render_advance_cex :
    (animC1.render 4).map SpriteAnimation.frame_num = some 2 ∧
    (animC1.frame_num +
        (⌊((4 : ℚ) - animC1.last_update) / animC1.milliseconds_per_frame⌋).toNat) %
      animC1.frames_in_sprite_map = 1 ∧
    (animC1.render 4).map SpriteAnimation.frame_num ≠
      some ((animC1.frame_num +
        (⌊((4 : ℚ) - animC1.last_update) / animC1.milliseconds_per_frame⌋).toNat) %
          animC1.frames_in_sprite_map) := by
  have hdiv : f64AsU128 ((5 : ℚ) / 2) = 2 := by
    norm_num [f64AsU128]
    decide
  have hms : durationAsMillis (0 : ℚ) 4 = 4 := by
    norm_num [durationAsMillis]
    decide
  have h1 : (animC1.render 4).map SpriteAnimation.frame_num = some 2 := by
    simp [animC1, SpriteAnimation.render, hdiv, hms, u128AsUsize,
      SpriteView.new, SpriteView.set_src_rect_pos]
  have h2 : (animC1.frame_num +
        (⌊((4 : ℚ) - animC1.last_update) / animC1.milliseconds_per_frame⌋).toNat) %
      animC1.frames_in_sprite_map = 1 := by
    norm_num [animC1]
  refine ⟨h1, h2, ?_⟩
  rw [h1, h2]
  decide

/-- Witness for C1 (amended): on `animB` (4 frames, 100 ms per frame, frame
1, last updated at 3 ms), rendering at 303 ms advances by 3 elapsed frames,
and rendering at 50 ms (0 elapsed frames) changes nothing. -/
theorem spriteAnimation_render_advance_witness :
    (0 < u128AsUsize (durationAsMillis animB.last_update 303 /
        f64AsU128 animB.milliseconds_per_frame)) ∧
    (∃ a', animB.render 303 = some a' ∧
      a'.frame_num = (animB.frame_num + u128AsUsize (durationAsMillis animB.last_update 303 /
          f64AsU128 animB.milliseconds_per_frame)) % animB.frames_in_sprite_map ∧
      a'.last_update = 303 ∧
      a'.sprite.image.source_rectangle = some
        (match animB.animation_direction with
          | Axis.X => ⟨(a'.frame_num : ℚ) * animB.sprite.sprite_size.w, 0,
              (⟨0, 0, 16, 16⟩ : Rect4).w, (⟨0, 0, 16, 16⟩ : Rect4).h⟩
          | Axis.Y => ⟨0, (a'.frame_num : ℚ) * animB.sprite.sprite_size.h,
              (⟨0, 0, 16, 16⟩ : Rect4).w, (⟨0, 0, 16, 16⟩ : Rect4).h⟩)) ∧
    (u128AsUsize (durationAsMillis animB.last_update 50 /
        f64AsU128 animB.milliseconds_per_frame) = 0) ∧
    animB.render 50 = some animB := by
  have h100 : f64AsU128 animB.milliseconds_per_frame = 100 := by
    show f64AsU128 (100 : ℚ) = 100
    norm_num [f64AsU128]
    decide
  have hm303 : durationAsMillis animB.last_update 303 = 300 := by
    show durationAsMillis (3 : ℚ) 303 = 300
    norm_num [durationAsMillis]
    decide
  have hm50 : durationAsMillis animB.last_update 50 = 47 := by
    show durationAsMillis (3 : ℚ) 50 = 47
    norm_num [durationAsMillis]
    decide
  have hf : 0 < animB.frames_in_sprite_map := by decide
  have hd : f64AsU128 animB.milliseconds_per_frame ≠ 0 := by rw [h100]; norm_num
  have hsrc : animB.sprite.image.source_rectangle = some ⟨0, 0, 16, 16⟩ := rfl
  have he : 0 < u128AsUsize (durationAsMillis animB.last_update 303 /
      f64AsU128 animB.milliseconds_per_frame) := by
    rw [hm303, h100]
    norm_num [u128AsUsize]
  have he0 : u128AsUsize (durationAsMillis animB.last_update 50 /
      f64AsU128 animB.milliseconds_per_frame) = 0 := by
    rw [hm50, h100]
    norm_num [u128AsUsize]
  exact ⟨he,
    (spriteAnimation_render_advance animB 303 ⟨0, 0, 16, 16⟩ hf hd hsrc).1 he,
    he0,
    (spriteAnimation_render_advance animB 50 ⟨0, 0, 16, 16⟩ hf hd hsrc).2 he0⟩

/-! ### C3: render swallows failed policy transitions -/

/-- C3: when the policy requests a transition to a state with no mapping
entry, `render` neither surfaces the failure nor panics: it returns `some`
(the error was printed and swallowed), the current state is unchanged, and
the current state's animation was still advanced by its own render that
tick. The hypothesis that the current animation's render succeeds rules out
the unrelated zero-divisor panic inside `SpriteAnimation::render`. -/
theorem animationStateMachine_render_swallows_failed_transition {S V : Type}
    [DecidableEq S] (next_state : S → V → Option S) (dbg : S → String)
    (m : AnimationStateMachine S) (viewed : V) (now : Instant) (s' : S)
    (anim anim' : SpriteAnimation)
    (hpol : next_state m.current_state viewed = some s')
    (hmiss : lookupA m.animations s' = none)
    (hcur : lookupA m.animations m.current_state = some anim)
    (hrender : anim.render now = some anim') :
    ∃ m', AnimationStateMachine.render next_state dbg m viewed now = some m' ∧
      m'.current_state = m.current_state ∧
      lookupA m'.animations m'.current_state = some anim' := by
  have hstep : AnimationStateMachine.policyStep next_state dbg m viewed now = m := by
    simp [AnimationStateMachine.policyStep, hpol,
      AnimationStateMachine.set_current_state, hmiss]
  refine ⟨{ m with animations := updateA m.animations m.current_state (fun _ => anim') },
    ?_, rfl, ?_⟩
  · simp only [AnimationStateMachine.render, hstep, hcur, hrender]
  · show lookupA (updateA m.animations m.current_state (fun _ => anim')) m.current_state =
      some anim'
    rw [lookupA_updateA_self, hcur]
    rfl

/-- Witness for C3: a machine on state `false` whose policy demands the
unmapped state `true`; the render at 7 ms returns successfully, stays on
`false`, and keeps `animB` (unchanged by its own render, 4 elapsed ms being
less than one 100 ms frame). -/
theorem animationStateMachine_render_swallows_failed_transition_witness :
    ∃ m', AnimationStateMachine.render (fun _ _ => some true) dbgB
        { current_state := false, animations := [(false, animB)] } () 7 = some m' ∧
      m'.current_state = ({ current_state := false, animations := [(false, animB)] } :
        AnimationStateMachine Bool).current_state ∧
      lookupA m'.animations m'.current_state = some animB := by
  have hrender : animB.render 7 = some animB := by
    have h100 : f64AsU128 animB.milliseconds_per_frame = 100 := by
      show f64AsU128 (100 : ℚ) = 100
      norm_num [f64AsU128]
      decide
    have hm : durationAsMillis animB.last_update 7 = 4 := by
      show durationAsMillis (3 : ℚ) 7 = 4
      norm_num [durationAsMillis]
      decide
    simp [SpriteAnimation.render, h100, hm, u128AsUsize]
  exact animationStateMachine_render_swallows_failed_transition
    (fun _ _ => some true) dbgB
    { current_state := false, animations := [(false, animB)] } () 7 true animB animB
    rfl rfl rfl hrender

/-! ### C9: the current state always has a mapping entry -/

/-- The total-mapping predicate: the animations mapping has an entry for
the machine's current state. -/
def mappedCurrent {S : Type} [DecidableEq S] (m : AnimationStateMachine S) : Prop :=
  (lookupA m.animations m.current_state).isSome = true

/-- Preservation of `mappedCurrent` by `set_current_state`, both on success
and on failure. -/
theorem mappedCurrent_set_current_state {S : Type} [DecidableEq S] (dbg : S → String)
    (m : AnimationStateMachine S) (now : Instant) (s : S) (h : mappedCurrent m) :
    mappedCurrent (m.set_current_state dbg now s).1 := by
  unfold mappedCurrent at *
  by_cases hs : (lookupA m.animations s).isSome = true
  · simp [AnimationStateMachine.set_current_state, hs, lookupA_updateA_self]
  · simpa [AnimationStateMachine.set_current_state, hs] using h

/-- C9: the predicate "the animations mapping has an entry for the current
state" is preserved by `set_state_animation` (which only adds or replaces
entries) and by `set_current_state` (which switches only to states it has
verified and keeps the state on failure); and after the policy-evaluation
step of `render` — the only way `render` changes state — the lookup that
`render` then `unwrap`s still succeeds, so it never panics. -/
theorem animationStateMachine_mapping_invariant (S V : Type) [DecidableEq S] :
    (∀ (m : AnimationStateMachine S) (state : S) (anim : SpriteAnimation),
      mappedCurrent m → mappedCurrent (m.set_state_animation state anim)) ∧
    (∀ (dbg : S → String) (m : AnimationStateMachine S) (now : Instant) (s : S),
      mappedCurrent m → mappedCurrent (m.set_current_state dbg now s).1) ∧
    (∀ (next_state : S → V → Option S) (dbg : S → String)
      (m : AnimationStateMachine S) (viewed : V) (now : Instant), mappedCurrent m →
      (lookupA (AnimationStateMachine.policyStep next_state dbg m viewed now).animations
        (AnimationStateMachine.policyStep next_state dbg m viewed now).current_state).isSome
        = true) := by
  refine ⟨?_, mappedCurrent_set_current_state, ?_⟩
  · intro m state anim h
    unfold mappedCurrent at *
    show (lookupA (insertA m.animations state anim) m.current_state).isSome = true
    by_cases hst : state = m.current_state
    · rw [hst, lookupA_insertA_self]
      rfl
    · rw [lookupA_insertA_ne _ _ _ _ hst]
      exact h
  · intro next_state dbg m viewed now h
    unfold AnimationStateMachine.policyStep
    cases hn : next_state m.current_state viewed with
    | none => exact h
    | some s => exact mappedCurrent_set_current_state dbg m now s h

/-- Witness for C9: the invariant holds for the concrete `Bool` machine and
is preserved by inserting an animation for `true`, by a state switch
attempt, and by the policy step of a render tick. -/
theorem animationStateMachine_mapping_invariant_witness :
    mappedCurrent (({ current_state := false, animations := [(false, animB)] } :
      AnimationStateMachine Bool).set_state_animation true animB) ∧
    mappedCurrent (({ current_state := false, animations := [(false, animB)] } :
      AnimationStateMachine Bool).set_current_state dbgB 5 true).1 ∧
    (lookupA (AnimationStateMachine.policyStep (fun _ (_ : Unit) => some true) dbgB
        { current_state := false, animations := [(false, animB)] } () 5).animations
      (AnimationStateMachine.policyStep (fun _ (_ : Unit) => some true) dbgB
        { current_state := false, animations := [(false, animB)] } () 5).current_state).isSome
      = true := by
  have h0 : mappedCurrent ({ current_state := false, animations := [(false, animB)] } :
      AnimationStateMachine Bool) := rfl
  exact ⟨(animationStateMachine_mapping_invariant Bool Unit).1 _ true animB h0,
    (animationStateMachine_mapping_invariant Bool Unit).2.1 dbgB _ 5 true h0,
    (animationStateMachine_mapping_invariant Bool Unit).2.2 (fun _ _ => some true)
      dbgB _ () 5 h0⟩
